import Mathlib

/-!
Verification of the Azure DevOps pipeline-trigger view
(`myproject/devops_ui/views.py`).

The development shallowly embeds the Python module: strings are Lean
`String`s (sequences of Unicode code points, as in Python 3), the Django
settings object is a structure, the network layer (`requests.post`) and
the JSON parser (`resp.json()`) are explicit functional parameters, and
the view returns the rendering context together with the list of emitted
observable events (the HTTP call and the log records).
-/

namespace DevOpsUI

/-- Python `str.strip()` whitespace: the code points Python treats as
whitespace for `str` (ASCII whitespace, the C1 separators, NEL, NBSP and
the Unicode space separators). Checked on `Char.toNat`. -/
def isPySpace (c : Char) : Bool :=
  let n := c.toNat
  (9 ≤ n && n ≤ 13) || n == 32 || (28 ≤ n && n ≤ 31) || n == 0x85 || n == 0xA0 ||
  n == 0x1680 || (0x2000 ≤ n && n ≤ 0x200A) || n == 0x2028 || n == 0x2029 ||
  n == 0x202F || n == 0x205F || n == 0x3000

/-- Python `s.strip()`: remove leading and trailing whitespace code points. -/
def pyStrip (s : String) : String :=
  ⟨((s.data.dropWhile isPySpace).reverse.dropWhile isPySpace).reverse⟩

/-- Unicode general category Nd (decimal digit), on code points. Python's
`re` module matches `\d` (in a `str` pattern) against exactly these
characters, so this is the character class of `_PIPELINE_ID_RE = ^\d+$`. -/
def isNdDigit (c : Char) : Bool :=
  let n := c.toNat
  (0x30 ≤ n && n ≤ 0x39) || (0x660 ≤ n && n ≤ 0x669) || (0x6F0 ≤ n && n ≤ 0x6F9) ||
  (0x7C0 ≤ n && n ≤ 0x7C9) || (0x966 ≤ n && n ≤ 0x96F) || (0x9E6 ≤ n && n ≤ 0x9EF) ||
  (0xA66 ≤ n && n ≤ 0xA6F) || (0xAE6 ≤ n && n ≤ 0xAEF) || (0xB66 ≤ n && n ≤ 0xB6F) ||
  (0xBE6 ≤ n && n ≤ 0xBEF) || (0xC66 ≤ n && n ≤ 0xC6F) || (0xCE6 ≤ n && n ≤ 0xCEF) ||
  (0xD66 ≤ n && n ≤ 0xD6F) || (0xDE6 ≤ n && n ≤ 0xDEF) || (0xE50 ≤ n && n ≤ 0xE59) ||
  (0xED0 ≤ n && n ≤ 0xED9) || (0xF20 ≤ n && n ≤ 0xF29) || (0x1040 ≤ n && n ≤ 0x1049) ||
  (0x1090 ≤ n && n ≤ 0x1099) || (0x17E0 ≤ n && n ≤ 0x17E9) || (0x1810 ≤ n && n ≤ 0x1819) ||
  (0x1946 ≤ n && n ≤ 0x194F) || (0x19D0 ≤ n && n ≤ 0x19D9) || (0x1A80 ≤ n && n ≤ 0x1A89) ||
  (0x1A90 ≤ n && n ≤ 0x1A99) || (0x1B50 ≤ n && n ≤ 0x1B59) || (0x1BB0 ≤ n && n ≤ 0x1BB9) ||
  (0x1C40 ≤ n && n ≤ 0x1C49) || (0x1C50 ≤ n && n ≤ 0x1C59) || (0xA620 ≤ n && n ≤ 0xA629) ||
  (0xA8D0 ≤ n && n ≤ 0xA8D9) || (0xA900 ≤ n && n ≤ 0xA909) || (0xA9D0 ≤ n && n ≤ 0xA9D9) ||
  (0xA9F0 ≤ n && n ≤ 0xA9F9) || (0xAA50 ≤ n && n ≤ 0xAA59) || (0xABF0 ≤ n && n ≤ 0xABF9) ||
  (0xFF10 ≤ n && n ≤ 0xFF19) || (0x104A0 ≤ n && n ≤ 0x104A9) || (0x10D30 ≤ n && n ≤ 0x10D39) ||
  (0x11066 ≤ n && n ≤ 0x1106F) || (0x110F0 ≤ n && n ≤ 0x110F9) || (0x11136 ≤ n && n ≤ 0x1113F) ||
  (0x111D0 ≤ n && n ≤ 0x111D9) || (0x112F0 ≤ n && n ≤ 0x112F9) || (0x11450 ≤ n && n ≤ 0x11459) ||
  (0x114D0 ≤ n && n ≤ 0x114D9) || (0x11650 ≤ n && n ≤ 0x11659) || (0x116C0 ≤ n && n ≤ 0x116C9) ||
  (0x11730 ≤ n && n ≤ 0x11739) || (0x118E0 ≤ n && n ≤ 0x118E9) || (0x11950 ≤ n && n ≤ 0x11959) ||
  (0x11C50 ≤ n && n ≤ 0x11C59) || (0x11D50 ≤ n && n ≤ 0x11D59) || (0x11DA0 ≤ n && n ≤ 0x11DA9) ||
  (0x16A60 ≤ n && n ≤ 0x16A69) || (0x16AC0 ≤ n && n ≤ 0x16AC9) || (0x16B50 ≤ n && n ≤ 0x16B59) ||
  (0x1D7CE ≤ n && n ≤ 0x1D7FF) || (0x1E140 ≤ n && n ≤ 0x1E149) || (0x1E2F0 ≤ n && n ≤ 0x1E2F9) ||
  (0x1E950 ≤ n && n ≤ 0x1E959) || (0x1FBF0 ≤ n && n ≤ 0x1FBF9)

/-- `_PIPELINE_ID_RE.match(s)` succeeds: the regex `^\d+$` applied by
`re.match` to a stripped string matches iff the string is non-empty and
every character is a Unicode decimal digit. -/
def pipelineIdRegexMatches (s : String) : Bool :=
  !s.data.isEmpty && s.data.all isNdDigit

/-- Python `s.startswith(pre)`: the characters of `pre` are a prefix of
the characters of `s`. -/
def pyStartsWith (s pre : String) : Bool :=
  pre.data.isPrefixOf s.data

/-- Python `needle in hay`: substring containment. -/
def isSubstr (needle hay : String) : Bool :=
  hay.data.tails.any fun suf => needle.data.isPrefixOf suf

/-- Uppercase hexadecimal digit for a value below 16, as produced by
`urllib.parse.quote`. -/
def hexDigit (n : Nat) : Char :=
  "0123456789ABCDEF".data.getD n 'X'

/-- UTF-8 encoding of one code point, as a list of byte values. -/
def utf8Bytes (c : Char) : List Nat :=
  let n := c.toNat
  if n < 0x80 then [n]
  else if n < 0x800 then [0xC0 + n / 0x40, 0x80 + n % 0x40]
  else if n < 0x10000 then
    [0xE0 + n / 0x1000, 0x80 + (n / 0x40) % 0x40, 0x80 + n % 0x40]
  else
    [0xF0 + n / 0x40000, 0x80 + (n / 0x1000) % 0x40, 0x80 + (n / 0x40) % 0x40,
     0x80 + n % 0x40]

/-- `%XX` escape of one byte value. -/
def percentByte (b : Nat) : String :=
  "%" ++ String.singleton (hexDigit (b / 16)) ++ String.singleton (hexDigit (b % 16))

/-- The characters `urllib.parse.quote` never escapes (its `ALWAYS_SAFE`
set): ASCII letters, ASCII digits, and `_ . - ~`. With `safe=""` these are
the only characters left unescaped. -/
def isAlwaysSafe (c : Char) : Bool :=
  let n := c.toNat
  (65 ≤ n && n ≤ 90) || (97 ≤ n && n ≤ 122) || (48 ≤ n && n ≤ 57) ||
  n == 95 || n == 46 || n == 45 || n == 126

/-- Encoding of one character under `urllib.parse.quote(·, safe="")`:
kept verbatim when in `ALWAYS_SAFE`, else each UTF-8 byte becomes `%XX`. -/
def quoteChar (c : Char) : List Char :=
  if isAlwaysSafe c then [c]
  else (utf8Bytes c).flatMap fun b => (percentByte b).data

/-- `urllib.parse.quote(s, safe="")`: percent-encode the UTF-8 bytes of
every character outside `ALWAYS_SAFE`. -/
def quote (s : String) : String :=
  ⟨s.data.flatMap quoteChar⟩

/-- Python `s.rstrip("/")`: drop every trailing `/`. -/
def rstripSlashes (s : String) : String :=
  ⟨(s.data.reverse.dropWhile (fun c => c == '/')).reverse⟩

/-- Python `s[:n]`: the first `n` characters (code points). -/
def pySlice (s : String) (n : Nat) : String :=
  ⟨s.data.take n⟩

/-- JSON values, the shape `resp.json()` can return. -/
inductive Json where
  | null : Json
  | bool (b : Bool) : Json
  | num (n : Int) : Json
  | str (s : String) : Json
  | arr (elems : List Json) : Json
  | obj (fields : List (String × Json)) : Json

/-- The Django settings the view reads. A missing or `None` optional
attribute is modelled as the empty string, matching the code's falsiness
tests (`not settings.AZDO_ORG_URL`, `getattr(..., None) or ...`). -/
structure Settings where
  AZDO_ORG_URL : String
  AZDO_PAT : String
  AZDO_DEFAULT_PROJECT : String
  AZDO_DEFAULT_REF : String

/-- Outcome of the one `requests.post` call: a response with a status code
and a body text, a `requests.exceptions.Timeout`, or any other
`requests.exceptions.RequestException` carrying its `str(e)` detail. -/
inductive NetOutcome where
  | response (status : Nat) (bodyText : String) : NetOutcome
  | timeout : NetOutcome
  | netError (detail : String) : NetOutcome

/-- The network layer: given the request URL, the Basic-auth password (the
PAT; the username is the constant empty string) and the JSON payload, the
environment produces one `NetOutcome`. -/
def Net := String → String → Json → NetOutcome

/-- An abstract JSON parser standing for `resp.json()`: `none` models the
`ValueError` raised on text that is not valid JSON. -/
def Parse := String → Option Json

/-- `_safe_json(resp)`: empty object for whitespace-only body text,
the parsed value when the body parses, else a `raw` fallback truncated to
2000 characters. Total, hence never raises. -/
def safe_json (parse : Parse) (text : String) : Json :=
  if pyStrip text = "" then .obj []
  else
    match parse text with
    | some j => j
    | none => .obj [("raw", .str (pySlice text 2000))]

/-- Result of `_trigger_devops_run`: the returned `(status_code, body)`
pair, or one of the exceptions it can raise into the caller's handlers. -/
inductive RunResult where
  | ok (status : Nat) (body : Json) : RunResult
  | configError (msg : String) : RunResult
  | timeoutError : RunResult
  | networkError (detail : String) : RunResult

/-- Observable events of one view invocation: the outbound HTTP POST and
the log records (`logger.info`/`warning`/`exception`/`error`). For
`logger.exception` the formatted message and the appended exception detail
are both recorded. -/
inductive Event where
  | httpPost (url : String) (payload : Json) : Event
  | logInfo (msg : String) : Event
  | logWarning (msg : String) : Event
  | logExc (msg : String) (detail : String) : Event
  | logError (msg : String) : Event

/-- Whether an event is the outbound HTTP call. -/
def Event.isPost : Event → Bool
  | .httpPost _ _ => true
  | _ => false

/-- The URL built by `_trigger_devops_run` (lines 49-52). -/
def buildUrl (st : Settings) (project pipeline_id : String) : String :=
  rstripSlashes st.AZDO_ORG_URL ++ "/" ++ quote project ++ "/_apis/pipelines/" ++
    pipeline_id ++ "/runs?api-version=7.1"

/-- The JSON payload built by `_trigger_devops_run` (line 53). -/
def buildPayload (ref_name : String) : Json :=
  .obj [("resources", .obj [("repositories", .obj [("self",
    .obj [("refName", .str ref_name)])])])]

/-- Error message raised when `AZDO_ORG_URL` or `AZDO_PAT` is missing. -/
def msgConfig : String :=
  "Azure DevOps configuration missing (AZDO_ORG_URL or AZDO_PAT)."

/-- `_trigger_devops_run`, returning the run result together with the HTTP
call actually issued (empty when the configuration check aborts first). -/
def trigger_devops_run (st : Settings) (parse : Parse) (net : Net)
    (pipeline_id project ref_name : String) : RunResult × List Event :=
  if st.AZDO_ORG_URL = "" ∨ st.AZDO_PAT = "" then
    (.configError msgConfig, [])
  else
    let url := buildUrl st project pipeline_id
    let payload := buildPayload ref_name
    match net url st.AZDO_PAT payload with
    | .response status text => (.ok status (safe_json parse text), [.httpPost url payload])
    | .timeout => (.timeoutError, [.httpPost url payload])
    | .netError d => (.networkError d, [.httpPost url payload])

/-- Validation message for a malformed pipeline id. -/
def msgPipeline : String := "Pipeline ID must be a numeric ID (e.g., 42)."

/-- Validation message for an empty project. -/
def msgProjectRequired : String := "Project is required."

/-- Validation message for a project containing a slash. -/
def msgProjectSlash : String :=
  "Project must not contain '/'. Use the exact display name from Azure DevOps."

/-- Validation message for a ref that does not start with `refs/`. -/
def msgRef : String := "Branch must be a valid Git ref (e.g., refs/heads/main)."

/-- Timeout message shown to the caller. -/
def msgTimeout : String := "Request to Azure DevOps timed out. Please retry."

/-- The `errors` list accumulated by the view (lines 96-107): the three
field rules are checked independently and every violation is collected. -/
def validationErrors (pipeline_id project ref_name : String) : List String :=
  (if pipeline_id = "" ∨ pipelineIdRegexMatches pipeline_id = false
    then [msgPipeline] else []) ++
  (if project = "" then [msgProjectRequired]
    else if '/' ∈ project.data then [msgProjectSlash] else []) ++
  (if pyStartsWith ref_name "refs/" then [] else [msgRef])

/-- Line 74: `getattr(settings, "AZDO_DEFAULT_REF", None) or "refs/heads/main"`. -/
def defaultRefOf (st : Settings) : String :=
  if st.AZDO_DEFAULT_REF = "" then "refs/heads/main" else st.AZDO_DEFAULT_REF

/-- Line 83: the submitted pipeline id, stripped. -/
def resolvedPipelineId (raw : String) : String := pyStrip raw

/-- Line 84: the stripped project, with the configured default substituted
when the stripped value is empty. -/
def resolvedProject (st : Settings) (raw : String) : String :=
  if pyStrip raw = "" then st.AZDO_DEFAULT_PROJECT else pyStrip raw

/-- Line 85: the stripped ref, with the default ref substituted when the
stripped value is empty. -/
def resolvedRefName (st : Settings) (raw : String) : String :=
  if pyStrip raw = "" then defaultRefOf st else pyStrip raw

/-- The rendering context handed to the template: the defaults, the echoed
(resolved) fields, the `error` string and the `result` dict. -/
structure Context where
  default_project : String
  default_ref : String
  pipelineId : Option String
  project : Option String
  refName : Option String
  error : Option String
  result : Option (Nat × Json)

/-- HTTP method of the incoming Django request. -/
inductive Method where
  | GET : Method
  | POST : Method

/-- The advisory hint added when the remote status is `>= 400` (lines
126-129). -/
def advisoryHint (status : Nat) : String :=
  "Azure DevOps returned HTTP " ++ toString status ++
    ". Check pipeline ID, project name, branch ref, permissions, and PAT scopes."

/-- The `devops_trigger` view: returns the rendering context and the list
of observable events (HTTP call, log records) of one invocation. Form
fields absent from the POST data are passed as empty strings, matching
`request.POST.get(...) or ""`. -/
def devops_trigger (st : Settings) (parse : Parse) (net : Net) (method : Method)
    (pipelineIdRaw projectRaw refNameRaw : String) : Context × List Event :=
  let ctx0 : Context :=
    { default_project := st.AZDO_DEFAULT_PROJECT
      default_ref := defaultRefOf st
      pipelineId := none, project := none, refName := none
      error := none, result := none }
  match method with
  | .GET => (ctx0, [])
  | .POST =>
    let pipeline_id := resolvedPipelineId pipelineIdRaw
    let project := resolvedProject st projectRaw
    let ref_name := resolvedRefName st refNameRaw
    let ctx1 := { ctx0 with
      pipelineId := some pipeline_id, project := some project,
      refName := some ref_name }
    let errors := validationErrors pipeline_id project ref_name
    if errors.isEmpty then
      match trigger_devops_run st parse net pipeline_id project ref_name with
      | (.ok status body, evs) =>
        let ctx2 := { ctx1 with result := some (status, body) }
        let evs2 := evs ++ [.logInfo ("Triggered Azure DevOps pipeline: project=" ++
          project ++ " pipeline_id=" ++ pipeline_id ++ " status=" ++ toString status)]
        if 400 ≤ status then
          ({ ctx2 with error := some (advisoryHint status) }, evs2)
        else (ctx2, evs2)
      | (.timeoutError, evs) =>
        ({ ctx1 with error := some msgTimeout },
         evs ++ [.logWarning ("Timeout triggering pipeline: project=" ++ project ++
           " pipeline_id=" ++ pipeline_id)])
      | (.networkError d, evs) =>
        ({ ctx1 with error := some ("Network error while contacting Azure DevOps: " ++ d) },
         evs ++ [.logExc ("Network error triggering pipeline: project=" ++ project ++
           " pipeline_id=" ++ pipeline_id) d])
      | (.configError m, evs) =>
        ({ ctx1 with error := some m }, evs ++ [.logError ("Configuration error: " ++ m)])
    else
      ({ ctx1 with error := some (" ".intercalate errors) }, [])

/-- Lines 60-61 of the source: the normalized result pair — the HTTP
status unchanged next to the `_safe_json` body. -/
def normalize (parse : Parse) (status : Nat) (text : String) : Nat × Json :=
  (status, safe_json parse text)

/-- The context produced by every POST before branching: defaults plus the
echoed resolved fields, no error, no result. -/
def ctxBase (st : Settings) (pipelineIdRaw projectRaw refNameRaw : String) : Context :=
  { default_project := st.AZDO_DEFAULT_PROJECT
    default_ref := defaultRefOf st
    pipelineId := some (resolvedPipelineId pipelineIdRaw)
    project := some (resolvedProject st projectRaw)
    refName := some (resolvedRefName st refNameRaw)
    error := none, result := none }

/-- The spec's pipeline-id pattern `^[0-9]+$` (ASCII decimal digits only),
stated from the spec's words for comparison with the code's regex. -/
def specAsciiNumeric (s : String) : Bool :=
  !s.data.isEmpty && s.data.all fun c => 48 ≤ c.toNat && c.toNat ≤ 57

/-- The slash-rejection message exactly as the spec states it, for
comparison with the code's `msgProjectSlash`. -/
def specMsgProjectSlash : String :=
  "Project must not contain '/'. Use the exact display name."

/-- The spec's derived `succeeded` flag of a TriggerResult:
`httpStatus < 400`, stated from the spec's words. -/
def specSucceeded (status : Nat) : Bool :=
  status < 400

/-- Characters that `quote` can emit: an `ALWAYS_SAFE` character, the
escape `%`, or an uppercase hexadecimal digit. -/
def isQuoteOutputChar (c : Char) : Bool :=
  isAlwaysSafe c || c == '%' ||
    (48 ≤ c.toNat && c.toNat ≤ 57) || (65 ≤ c.toNat && c.toNat ≤ 70)

/-- URL metacharacters that would open a new path segment, query
parameter, fragment or key-value separator. -/
def urlMeta (c : Char) : Bool :=
  c == '/' || c == '?' || c == '#' || c == '&' || c == '='

/-- A well-formed example configuration, used to instantiate theorems. -/
def stA : Settings :=
  ⟨"https://dev.azure.com/Org", "token123", "Proj", ""⟩

/-- A configuration whose access token is missing. -/
def stNoPat : Settings :=
  ⟨"https://dev.azure.com/Org", "", "Proj", ""⟩

/-- A configuration whose access token happens to collide with a fixed
validation message. -/
def stLeak : Settings :=
  ⟨"https://dev.azure.com/Org", "Pipeline ID must", "Proj", ""⟩

/-- A parser refusing every body, i.e. every body is invalid JSON. -/
def parseNone : Parse := fun _ => none

/-- A network that always answers `200` with an empty body. -/
def netOK : Net := fun _ _ _ => .response 200 ""

/-- A network that always answers `404` with an empty body. -/
def net404 : Net := fun _ _ _ => .response 404 ""

/-- A well-formed configuration with no default project configured. -/
def stB : Settings :=
  ⟨"https://dev.azure.com/Org", "token123", "", ""⟩

/-- A body text of 2001 non-whitespace characters, for the truncation
bound. -/
def longBody : String := ⟨List.replicate 2001 'a'⟩

/-! ### Behavior of `devops_trigger` on each control-flow path -/

theorem dt_post_invalid (st : Settings) (parse : Parse) (net : Net)
    (pid proj ref : String)
    (h : validationErrors (resolvedPipelineId pid) (resolvedProject st proj)
      (resolvedRefName st ref) ≠ []) :
    devops_trigger st parse net .POST pid proj ref =
      ({ ctxBase st pid proj ref with
          error := some (" ".intercalate (validationErrors (resolvedPipelineId pid)
            (resolvedProject st proj) (resolvedRefName st ref))) }, []) := by
  rcases he : validationErrors (resolvedPipelineId pid) (resolvedProject st proj)
      (resolvedRefName st ref) with _ | ⟨a, rest⟩
  · exact absurd he h
  · simp [devops_trigger, ctxBase, he]

theorem dt_post_config (st : Settings) (parse : Parse) (net : Net)
    (pid proj ref : String)
    (h : validationErrors (resolvedPipelineId pid) (resolvedProject st proj)
      (resolvedRefName st ref) = [])
    (hcfg : st.AZDO_ORG_URL = "" ∨ st.AZDO_PAT = "") :
    devops_trigger st parse net .POST pid proj ref =
      ({ ctxBase st pid proj ref with error := some msgConfig },
       [.logError ("Configuration error: " ++ msgConfig)]) := by
  simp [devops_trigger, trigger_devops_run, ctxBase, h, hcfg]

theorem dt_post_response (st : Settings) (parse : Parse) (net : Net)
    (pid proj ref : String) (status : Nat) (text : String)
    (h : validationErrors (resolvedPipelineId pid) (resolvedProject st proj)
      (resolvedRefName st ref) = [])
    (horg : st.AZDO_ORG_URL ≠ "") (hpat : st.AZDO_PAT ≠ "")
    (hnet : net (buildUrl st (resolvedProject st proj) (resolvedPipelineId pid))
      st.AZDO_PAT (buildPayload (resolvedRefName st ref)) = .response status text) :
    devops_trigger st parse net .POST pid proj ref =
      ({ ctxBase st pid proj ref with
          result := some (status, safe_json parse text)
          error := if 400 ≤ status then some (advisoryHint status) else none },
       [.httpPost (buildUrl st (resolvedProject st proj) (resolvedPipelineId pid))
          (buildPayload (resolvedRefName st ref)),
        .logInfo ("Triggered Azure DevOps pipeline: project=" ++ resolvedProject st proj ++
          " pipeline_id=" ++ resolvedPipelineId pid ++ " status=" ++ toString status)]) := by
  by_cases h4 : 400 ≤ status <;>
    simp [devops_trigger, trigger_devops_run, ctxBase, h, horg, hpat, hnet, h4]

theorem dt_post_timeout (st : Settings) (parse : Parse) (net : Net)
    (pid proj ref : String)
    (h : validationErrors (resolvedPipelineId pid) (resolvedProject st proj)
      (resolvedRefName st ref) = [])
    (horg : st.AZDO_ORG_URL ≠ "") (hpat : st.AZDO_PAT ≠ "")
    (hnet : net (buildUrl st (resolvedProject st proj) (resolvedPipelineId pid))
      st.AZDO_PAT (buildPayload (resolvedRefName st ref)) = .timeout) :
    devops_trigger st parse net .POST pid proj ref =
      ({ ctxBase st pid proj ref with error := some msgTimeout },
       [.httpPost (buildUrl st (resolvedProject st proj) (resolvedPipelineId pid))
          (buildPayload (resolvedRefName st ref)),
        .logWarning ("Timeout triggering pipeline: project=" ++ resolvedProject st proj ++
          " pipeline_id=" ++ resolvedPipelineId pid)]) := by
  simp [devops_trigger, trigger_devops_run, ctxBase, h, horg, hpat, hnet]

theorem dt_post_netError (st : Settings) (parse : Parse) (net : Net)
    (pid proj ref : String) (d : String)
    (h : validationErrors (resolvedPipelineId pid) (resolvedProject st proj)
      (resolvedRefName st ref) = [])
    (horg : st.AZDO_ORG_URL ≠ "") (hpat : st.AZDO_PAT ≠ "")
    (hnet : net (buildUrl st (resolvedProject st proj) (resolvedPipelineId pid))
      st.AZDO_PAT (buildPayload (resolvedRefName st ref)) = .netError d) :
    devops_trigger st parse net .POST pid proj ref =
      ({ ctxBase st pid proj ref with
          error := some ("Network error while contacting Azure DevOps: " ++ d) },
       [.httpPost (buildUrl st (resolvedProject st proj) (resolvedPipelineId pid))
          (buildPayload (resolvedRefName st ref)),
        .logExc ("Network error triggering pipeline: project=" ++ resolvedProject st proj ++
          " pipeline_id=" ++ resolvedPipelineId pid) d]) := by
  simp [devops_trigger, trigger_devops_run, ctxBase, h, horg, hpat, hnet]

/-! ### Characterization of the validator -/

theorem validationErrors_eq_nil (a b c : String) :
    validationErrors a b c = [] ↔
      (a ≠ "" ∧ pipelineIdRegexMatches a = true) ∧
      (b ≠ "" ∧ '/' ∉ b.data) ∧ pyStartsWith c "refs/" = true := by
  unfold validationErrors
  split_ifs <;> simp_all
  tauto

theorem msgPipeline_mem (a b c : String) :
    msgPipeline ∈ validationErrors a b c ↔
      (a = "" ∨ pipelineIdRegexMatches a = false) := by
  unfold validationErrors
  split_ifs <;>
    simp_all [msgPipeline, msgProjectRequired, msgProjectSlash, msgRef]

theorem msgProjectRequired_mem (a b c : String) :
    msgProjectRequired ∈ validationErrors a b c ↔ b = "" := by
  unfold validationErrors
  split_ifs <;>
    simp_all [msgPipeline, msgProjectRequired, msgProjectSlash, msgRef]

theorem msgProjectSlash_mem (a b c : String) :
    msgProjectSlash ∈ validationErrors a b c ↔ (b ≠ "" ∧ '/' ∈ b.data) := by
  unfold validationErrors
  split_ifs <;>
    simp_all [msgPipeline, msgProjectRequired, msgProjectSlash, msgRef]

theorem msgRef_mem (a b c : String) :
    msgRef ∈ validationErrors a b c ↔ pyStartsWith c "refs/" = false := by
  unfold validationErrors
  split_ifs <;>
    simp_all [msgPipeline, msgProjectRequired, msgProjectSlash, msgRef]

/-! ### Character-level facts about the encoded URL segments -/

theorem char_ne_of (p : Char → Bool) (c x : Char)
    (h1 : p c = true) (h2 : p x = false) : c ≠ x := by
  intro he; rw [he, h2] at h1; exact Bool.false_ne_true h1

theorem char_toNat_lt (c : Char) : c.toNat < 1114112 := by
  rcases c.valid with h | ⟨_, h⟩
  · exact Nat.lt_trans h (by norm_num)
  · exact h

theorem utf8Bytes_lt (c : Char) : ∀ b ∈ utf8Bytes c, b < 256 := by
  intro b hb
  have hc := char_toNat_lt c
  simp only [utf8Bytes] at hb
  split_ifs at hb <;> simp_all <;> omega

theorem hexDigit_quoteOutput (n : Nat) (h : n < 16) :
    isQuoteOutputChar (hexDigit n) = true := by
  revert h
  exact (by decide : ∀ m < 16, isQuoteOutputChar (hexDigit m) = true) n

theorem percentByte_chars (b : Nat) (h : b < 256) :
    ∀ c ∈ (percentByte b).data, isQuoteOutputChar c = true := by
  intro c hc
  have h1 : b / 16 < 16 := by omega
  have h2 : b % 16 < 16 := by omega
  simp [percentByte] at hc
  rcases hc with hc | hc | hc
  · subst hc; decide
  · subst hc; exact hexDigit_quoteOutput _ h1
  · subst hc; exact hexDigit_quoteOutput _ h2

theorem quote_chars (s : String) :
    ∀ c ∈ (quote s).data, isQuoteOutputChar c = true := by
  intro c hc
  simp only [quote, List.mem_flatMap] at hc
  obtain ⟨a, _, ha⟩ := hc
  unfold quoteChar at ha
  split_ifs at ha with hsafe
  · simp at ha; subst ha; simp [isQuoteOutputChar, hsafe]
  · simp only [List.mem_flatMap] at ha
    obtain ⟨b, hb, hcb⟩ := ha
    exact percentByte_chars b (utf8Bytes_lt a b hb) c hcb

theorem quoteOutput_not_meta (c : Char) (h : isQuoteOutputChar c = true) :
    urlMeta c = false := by
  simp only [urlMeta, Bool.or_eq_false_iff, beq_eq_false_iff_ne]
  refine ⟨⟨⟨⟨?_, ?_⟩, ?_⟩, ?_⟩, ?_⟩ <;>
    exact char_ne_of isQuoteOutputChar c _ h (by decide)

theorem nd_not_meta (c : Char) (h : isNdDigit c = true) :
    urlMeta c = false := by
  simp only [urlMeta, Bool.or_eq_false_iff, beq_eq_false_iff_ne]
  refine ⟨⟨⟨⟨?_, ?_⟩, ?_⟩, ?_⟩, ?_⟩ <;>
    exact char_ne_of isNdDigit c _ h (by decide)

theorem dt_post_context_fields (st : Settings) (parse : Parse) (net : Net)
    (pid proj ref : String) :
    (devops_trigger st parse net .POST pid proj ref).1.pipelineId
        = some (resolvedPipelineId pid) ∧
    (devops_trigger st parse net .POST pid proj ref).1.project
        = some (resolvedProject st proj) ∧
    (devops_trigger st parse net .POST pid proj ref).1.refName
        = some (resolvedRefName st ref) := by
  by_cases hval : validationErrors (resolvedPipelineId pid)
      (resolvedProject st proj) (resolvedRefName st ref) = []
  · by_cases horg : st.AZDO_ORG_URL = ""
    · rw [dt_post_config st parse net pid proj ref hval (Or.inl horg)]
      exact ⟨rfl, rfl, rfl⟩
    · by_cases hpat : st.AZDO_PAT = ""
      · rw [dt_post_config st parse net pid proj ref hval (Or.inr hpat)]
        exact ⟨rfl, rfl, rfl⟩
      · cases hr : net (buildUrl st (resolvedProject st proj) (resolvedPipelineId pid))
            st.AZDO_PAT (buildPayload (resolvedRefName st ref)) with
        | response status text =>
          rw [dt_post_response st parse net pid proj ref status text hval horg hpat hr]
          exact ⟨rfl, rfl, rfl⟩
        | timeout =>
          rw [dt_post_timeout st parse net pid proj ref hval horg hpat hr]
          exact ⟨rfl, rfl, rfl⟩
        | netError d =>
          rw [dt_post_netError st parse net pid proj ref d hval horg hpat hr]
          exact ⟨rfl, rfl, rfl⟩
  · rw [dt_post_invalid st parse net pid proj ref hval]
    exact ⟨rfl, rfl, rfl⟩

/-- C9: `normalize` passes the status through unchanged and never raises
(it is total); the body is the empty object when the trimmed body text is
empty — in particular `normalize(status, "")` and `normalize(status, "   ")`
both give `(status, {})` — the parsed value when the body parses as JSON,
and otherwise a `raw` field holding the first 2000 characters, whose
length is exactly 2000 for longer non-JSON bodies. -/
theorem normalize_behavior (parse : Parse) (status : Nat) (text : String) :
    (normalize parse status text).1 = status ∧
    (pyStrip text = "" → normalize parse status text = (status, Json.obj [])) ∧
    (normalize parse status "" = (status, Json.obj []) ∧
      normalize parse status "   " = (status, Json.obj [])) ∧
    (∀ j, pyStrip text ≠ "" → parse text = some j →
      normalize parse status text = (status, j)) ∧
    (pyStrip text ≠ "" → parse text = none →
      normalize parse status text
          = (status, Json.obj [("raw", Json.str (pySlice text 2000))]) ∧
        (2000 < text.length → (pySlice text 2000).length = 2000)) := by
  refine ⟨rfl, fun h => ?_, ⟨rfl, rfl⟩, fun j h hp => ?_, fun h hp => ⟨?_, fun hl => ?_⟩⟩
  · simp [normalize, safe_json, h]
  · simp [normalize, safe_json, h, hp]
  · simp [normalize, safe_json, h, hp]
  · have : text.length = text.data.length := rfl
    have h2 : (pySlice text 2000).length = (text.data.take 2000).length := rfl
    rw [h2, List.length_take]
    omega

theorem pyStrip_replicate (n : Nat) (c : Char) (h : isPySpace c = false) :
    pyStrip ⟨List.replicate n c⟩ = ⟨List.replicate n c⟩ := by
  unfold pyStrip
  cases n with
  | zero => rfl
  | succ m =>
    rw [List.replicate_succ, List.dropWhile_cons, if_neg (by simp [h]),
        ← List.replicate_succ, List.reverse_replicate, List.replicate_succ,
        List.dropWhile_cons, if_neg (by simp [h]), ← List.replicate_succ,
        List.reverse_replicate]

/-- Witness for C9 at concrete inputs: whitespace-only and empty bodies
normalize to `(7, {})`, a non-JSON body falls back to its `raw` text, and
a 2001-character non-JSON body is truncated to exactly 2000 characters. -/
theorem normalize_behavior_witness :
    normalize parseNone 7 "   " = (7, Json.obj []) ∧
    normalize parseNone 7 "" = (7, Json.obj []) ∧
    normalize parseNone 7 "notjson"
        = (7, Json.obj [("raw", Json.str "notjson")]) ∧
    (pySlice longBody 2000).length = 2000 := by
  have hne : pyStrip longBody ≠ "" := by
    simp only [longBody]
    rw [pyStrip_replicate 2001 'a' (by decide)]
    intro hh
    have h0 : List.replicate 2001 'a' = ([] : List Char) := congrArg String.data hh
    have h1 := congrArg List.length h0
    rw [List.length_replicate] at h1
    simp at h1
  have hlen : 2000 < longBody.length := by
    have h1 : longBody.length = (List.replicate 2001 'a').length := rfl
    rw [List.length_replicate] at h1
    omega
  refine ⟨(normalize_behavior parseNone 7 "   ").2.1 (by decide),
    ((normalize_behavior parseNone 7 "").2.2.1).1,
    ?_, ?_⟩
  · have h := (normalize_behavior parseNone 7 "notjson").2.2.2.2
      (by decide) rfl
    exact h.1
  · have h := (normalize_behavior parseNone 7 longBody).2.2.2.2 hne rfl
    exact h.2 hlen

/-- C2: for a validated request whose remote call completes with HTTP
status `>= 400`, the view still produces a result (`Success` carrying the
status and normalized body) together with the advisory remediation hint,
rather than a failure without a result; the spec-level `succeeded` flag
derived from `httpStatus < 400` is `false`. -/
theorem remote_error_soft_success (st : Settings) (parse : Parse) (net : Net)
    (pid proj ref : String) (status : Nat) (text : String)
    (hval : validationErrors (resolvedPipelineId pid) (resolvedProject st proj)
      (resolvedRefName st ref) = [])
    (horg : st.AZDO_ORG_URL ≠ "") (hpat : st.AZDO_PAT ≠ "")
    (hnet : net (buildUrl st (resolvedProject st proj) (resolvedPipelineId pid))
      st.AZDO_PAT (buildPayload (resolvedRefName st ref)) = .response status text)
    (h400 : 400 ≤ status) :
    (devops_trigger st parse net .POST pid proj ref).1.result
        = some (status, safe_json parse text) ∧
    (devops_trigger st parse net .POST pid proj ref).1.error
        = some (advisoryHint status) ∧
    specSucceeded status = false := by
  rw [dt_post_response st parse net pid proj ref status text hval horg hpat hnet]
  refine ⟨rfl, ?_, ?_⟩
  · simp [h400]
  · simp [specSucceeded]
    omega

/-- Witness for C2: valid input `pipelineId=42`, remote answers `404` with
an empty body; the result is `(404, {})`, the advisory hint is shown, and
the derived `succeeded` flag is `false`. -/
theorem remote_error_soft_success_witness :
    (devops_trigger stA parseNone net404 .POST "42" "" "").1.result
        = some (404, Json.obj []) ∧
    (devops_trigger stA parseNone net404 .POST "42" "" "").1.error
        = some (advisoryHint 404) ∧
    specSucceeded 404 = false :=
  remote_error_soft_success stA parseNone net404 "42" "" "" 404 ""
    (by decide) (by decide) (by decide) rfl (by decide)

/-- C8: when the organization URL or the token is missing, a validated
request yields exactly the configuration message, no result and no HTTP
call; and when both are present, `_trigger_devops_run` can never produce a
configuration failure, whatever the user input. -/
theorem config_missing_behavior (st : Settings) (parse : Parse) (net : Net)
    (pid proj ref : String)
    (hval : validationErrors (resolvedPipelineId pid) (resolvedProject st proj)
      (resolvedRefName st ref) = []) :
    ((st.AZDO_ORG_URL = "" ∨ st.AZDO_PAT = "") →
      (devops_trigger st parse net .POST pid proj ref).1.error = some msgConfig ∧
      (devops_trigger st parse net .POST pid proj ref).1.result = none ∧
      ((devops_trigger st parse net .POST pid proj ref).2.all fun e => !e.isPost)
        = true) ∧
    (st.AZDO_ORG_URL ≠ "" → st.AZDO_PAT ≠ "" →
      ∀ pid2 proj2 ref2 m,
        (trigger_devops_run st parse net pid2 proj2 ref2).1 ≠ .configError m) := by
  constructor
  · intro hcfg
    rw [dt_post_config st parse net pid proj ref hval hcfg]
    exact ⟨rfl, rfl, rfl⟩
  · intro horg hpat pid2 proj2 ref2 m
    simp only [trigger_devops_run]
    rw [if_neg (by tauto)]
    cases net (buildUrl st proj2 pid2) st.AZDO_PAT (buildPayload ref2) <;> simp

/-- Witness for C8: with an empty `AZDO_PAT` and valid input the view
reports exactly the configuration message, keeps no result, and makes no
HTTP call. -/
theorem config_missing_behavior_witness :
    (devops_trigger stNoPat parseNone netOK .POST "42" "" "").1.error
        = some msgConfig ∧
    (devops_trigger stNoPat parseNone netOK .POST "42" "" "").1.result = none ∧
    ((devops_trigger stNoPat parseNone netOK .POST "42" "" "").2.all
      fun e => !e.isPost) = true :=
  (config_missing_behavior stNoPat parseNone netOK "42" "" "" (by decide)).1
    (Or.inr rfl)

/-- C3, counterexample: the submitted pipeline id `"٤"` (ARABIC-INDIC
DIGIT FOUR, U+0664) does not match the spec's `^[0-9]+$`, yet the code's
`^\d+$` (Unicode decimal digits) accepts it: validation reports no error
and the HTTP call is performed. -/
theorem pipelineId_unicode_counterexample :
    specAsciiNumeric (pyStrip "٤") = false ∧
    (devops_trigger stA parseNone netOK .POST "٤" "Proj" "refs/heads/main").1.error
        = none ∧
    ((devops_trigger stA parseNone netOK .POST "٤" "Proj" "refs/heads/main").2.any
      Event.isPost) = true := by
  refine ⟨by decide, by decide, by decide⟩

/-- C3, amended: for every submitted pipelineId whose trimmed value fails
the code's regex `^\d+$` — i.e. is empty or contains a character that is
not a Unicode decimal digit (category Nd) — validation fails, the message
"Pipeline ID must be a numeric ID (e.g., 42)." is among the collected
violations, the joined violations are displayed, and no network call is
performed. -/
theorem pipelineId_validation_rejects (st : Settings) (parse : Parse) (net : Net)
    (pid proj ref : String)
    (h : pipelineIdRegexMatches (resolvedPipelineId pid) = false) :
    msgPipeline ∈ validationErrors (resolvedPipelineId pid)
      (resolvedProject st proj) (resolvedRefName st ref) ∧
    (devops_trigger st parse net .POST pid proj ref).1.error
        = some (" ".intercalate (validationErrors (resolvedPipelineId pid)
            (resolvedProject st proj) (resolvedRefName st ref))) ∧
    (devops_trigger st parse net .POST pid proj ref).1.result = none ∧
    (devops_trigger st parse net .POST pid proj ref).2 = [] := by
  have hmem : msgPipeline ∈ validationErrors (resolvedPipelineId pid)
      (resolvedProject st proj) (resolvedRefName st ref) :=
    (msgPipeline_mem _ _ _).mpr (Or.inr h)
  have hne : validationErrors (resolvedPipelineId pid)
      (resolvedProject st proj) (resolvedRefName st ref) ≠ [] := by
    intro h0; rw [h0] at hmem; exact (List.not_mem_nil _) hmem
  rw [dt_post_invalid st parse net pid proj ref hne]
  exact ⟨hmem, rfl, rfl, rfl⟩

/-- Witness for C3 (amended) at `pipelineId="abc"`: the message is
collected, displayed, and neither a result nor any event is produced. -/
theorem pipelineId_validation_rejects_witness :
    pipelineIdRegexMatches (resolvedPipelineId "abc") = false ∧
    msgPipeline ∈ validationErrors (resolvedPipelineId "abc")
      (resolvedProject stA "Proj") (resolvedRefName stA "refs/heads/main") ∧
    (devops_trigger stA parseNone netOK .POST "abc" "Proj" "refs/heads/main").1.error
        = some msgPipeline ∧
    (devops_trigger stA parseNone netOK .POST "abc" "Proj" "refs/heads/main").1.result
        = none ∧
    (devops_trigger stA parseNone netOK .POST "abc" "Proj" "refs/heads/main").2 = [] := by
  have h := pipelineId_validation_rejects stA parseNone netOK "abc" "Proj"
    "refs/heads/main" (by decide)
  exact ⟨by decide, h.1, h.2.1, h.2.2.1, h.2.2.2⟩

/-- C4, counterexample: for `project="Team/Sub"` the code's message ends
in "from Azure DevOps", so it is not exactly the message the claim
states. -/
theorem project_slash_message_counterexample :
    (devops_trigger stA parseNone netOK .POST "42" "Team/Sub" "refs/heads/main").1.error
        = some msgProjectSlash ∧
    msgProjectSlash ≠ specMsgProjectSlash := by
  refine ⟨by decide, by decide⟩

/-- C4, amended: an empty trimmed project is replaced by the configured
default; if the resulting value is empty, validation fails with exactly
"Project is required."; if it contains `/`, validation fails with exactly
"Project must not contain '/'. Use the exact display name from Azure
DevOps." — in both cases the joined violations are displayed and no
network call is performed. -/
theorem project_validation_rules (st : Settings) (parse : Parse) (net : Net)
    (pid proj ref : String) :
    (pyStrip proj = "" → resolvedProject st proj = st.AZDO_DEFAULT_PROJECT) ∧
    (resolvedProject st proj = "" →
      msgProjectRequired ∈ validationErrors (resolvedPipelineId pid)
        (resolvedProject st proj) (resolvedRefName st ref) ∧
      (devops_trigger st parse net .POST pid proj ref).1.result = none ∧
      (devops_trigger st parse net .POST pid proj ref).2 = []) ∧
    ('/' ∈ (resolvedProject st proj).data →
      msgProjectSlash ∈ validationErrors (resolvedPipelineId pid)
        (resolvedProject st proj) (resolvedRefName st ref) ∧
      (devops_trigger st parse net .POST pid proj ref).1.result = none ∧
      (devops_trigger st parse net .POST pid proj ref).2 = []) := by
  refine ⟨fun h => by simp [resolvedProject, h], fun h => ?_, fun h => ?_⟩
  · have hmem : msgProjectRequired ∈ validationErrors (resolvedPipelineId pid)
        (resolvedProject st proj) (resolvedRefName st ref) :=
      (msgProjectRequired_mem _ _ _).mpr h
    have hne : validationErrors (resolvedPipelineId pid)
        (resolvedProject st proj) (resolvedRefName st ref) ≠ [] := by
      intro h0; rw [h0] at hmem; exact (List.not_mem_nil _) hmem
    rw [dt_post_invalid st parse net pid proj ref hne]
    exact ⟨hmem, rfl, rfl⟩
  · have hne' : resolvedProject st proj ≠ "" := by
      intro h0; rw [h0] at h; exact (List.not_mem_nil _) h
    have hmem : msgProjectSlash ∈ validationErrors (resolvedPipelineId pid)
        (resolvedProject st proj) (resolvedRefName st ref) :=
      (msgProjectSlash_mem _ _ _).mpr ⟨hne', h⟩
    have hne : validationErrors (resolvedPipelineId pid)
        (resolvedProject st proj) (resolvedRefName st ref) ≠ [] := by
      intro h0; rw [h0] at hmem; exact (List.not_mem_nil _) hmem
    rw [dt_post_invalid st parse net pid proj ref hne]
    exact ⟨hmem, rfl, rfl⟩

/-- Witness for C4 (amended): with no configured default an empty project
yields "Project is required."; `project="Team/Sub"` yields the slash
message; in both runs no event is emitted. -/
theorem project_validation_rules_witness :
    (pyStrip "" = "" ∧ resolvedProject stB "" = "") ∧
    (msgProjectRequired ∈ validationErrors (resolvedPipelineId "42")
      (resolvedProject stB "") (resolvedRefName stB "refs/heads/main") ∧
     (devops_trigger stB parseNone netOK .POST "42" "" "refs/heads/main").2 = []) ∧
    ('/' ∈ (resolvedProject stA "Team/Sub").data ∧
     msgProjectSlash ∈ validationErrors (resolvedPipelineId "42")
      (resolvedProject stA "Team/Sub") (resolvedRefName stA "refs/heads/main") ∧
     (devops_trigger stA parseNone netOK .POST "42" "Team/Sub" "refs/heads/main").2
        = []) := by
  have h1 := (project_validation_rules stB parseNone netOK "42" "" "refs/heads/main").2.1
    (by decide)
  have h2 := (project_validation_rules stA parseNone netOK "42" "Team/Sub"
    "refs/heads/main").2.2 (by decide)
  exact ⟨⟨by decide, by decide⟩, ⟨h1.1, h1.2.2⟩, ⟨by decide, h2.1, h2.2.2⟩⟩

/-- C5: the three field rules are checked independently — each message is
collected exactly when its rule is violated — and on any violation the
view displays the full ordered list joined by single spaces, produces no
result and emits no event (so neither the request builder's call nor the
network call happens); on success the context carries the validated,
default-substituted triple. -/
theorem validator_collects_all_violations (st : Settings) (parse : Parse)
    (net : Net) (pid proj ref : String) :
    (msgPipeline ∈ validationErrors (resolvedPipelineId pid)
        (resolvedProject st proj) (resolvedRefName st ref) ↔
      (resolvedPipelineId pid = "" ∨
        pipelineIdRegexMatches (resolvedPipelineId pid) = false)) ∧
    (msgProjectRequired ∈ validationErrors (resolvedPipelineId pid)
        (resolvedProject st proj) (resolvedRefName st ref) ↔
      resolvedProject st proj = "") ∧
    (msgProjectSlash ∈ validationErrors (resolvedPipelineId pid)
        (resolvedProject st proj) (resolvedRefName st ref) ↔
      (resolvedProject st proj ≠ "" ∧ '/' ∈ (resolvedProject st proj).data)) ∧
    (msgRef ∈ validationErrors (resolvedPipelineId pid)
        (resolvedProject st proj) (resolvedRefName st ref) ↔
      pyStartsWith (resolvedRefName st ref) "refs/" = false) ∧
    (validationErrors (resolvedPipelineId pid) (resolvedProject st proj)
        (resolvedRefName st ref) ≠ [] →
      (devops_trigger st parse net .POST pid proj ref).1.error
          = some (" ".intercalate (validationErrors (resolvedPipelineId pid)
              (resolvedProject st proj) (resolvedRefName st ref))) ∧
      (devops_trigger st parse net .POST pid proj ref).1.result = none ∧
      (devops_trigger st parse net .POST pid proj ref).2 = []) ∧
    (validationErrors (resolvedPipelineId pid) (resolvedProject st proj)
        (resolvedRefName st ref) = [] →
      (devops_trigger st parse net .POST pid proj ref).1.pipelineId
          = some (resolvedPipelineId pid) ∧
      (devops_trigger st parse net .POST pid proj ref).1.project
          = some (resolvedProject st proj) ∧
      (devops_trigger st parse net .POST pid proj ref).1.refName
          = some (resolvedRefName st ref)) := by
  refine ⟨msgPipeline_mem _ _ _, msgProjectRequired_mem _ _ _,
    msgProjectSlash_mem _ _ _, msgRef_mem _ _ _, fun hne => ?_,
    fun _ => dt_post_context_fields st parse net pid proj ref⟩
  rw [dt_post_invalid st parse net pid proj ref hne]
  exact ⟨rfl, rfl, rfl⟩

/-- Witness for C5: input violating all three rules at once collects all
three messages in order, space-joined, with no result and no event. -/
theorem validator_collects_all_violations_witness :
    validationErrors (resolvedPipelineId "abc") (resolvedProject stB "")
        (resolvedRefName stB "main") ≠ [] ∧
    (devops_trigger stB parseNone netOK .POST "abc" "" "main").1.error
        = some ("Pipeline ID must be a numeric ID (e.g., 42). Project is required. Branch must be a valid Git ref (e.g., refs/heads/main).") ∧
    (devops_trigger stB parseNone netOK .POST "abc" "" "main").1.result = none ∧
    (devops_trigger stB parseNone netOK .POST "abc" "" "main").2 = [] := by
  have h := (validator_collects_all_violations stB parseNone netOK
    "abc" "" "main").2.2.2.2.1 (by decide)
  exact ⟨by decide, h.1, h.2.1, h.2.2⟩

/-- C6: an empty trimmed refName is replaced by the configured default
ref, itself falling back to "refs/heads/main" when unset; the ref rule
then fails — collecting exactly "Branch must be a valid Git ref (e.g.,
refs/heads/main)." — if and only if the resulting value does not start
with "refs/". -/
theorem refName_validation_rules (st : Settings) (pid proj ref : String) :
    (pyStrip ref = "" → resolvedRefName st ref = defaultRefOf st) ∧
    (st.AZDO_DEFAULT_REF = "" → defaultRefOf st = "refs/heads/main") ∧
    (msgRef ∈ validationErrors (resolvedPipelineId pid)
        (resolvedProject st proj) (resolvedRefName st ref) ↔
      pyStartsWith (resolvedRefName st ref) "refs/" = false) := by
  refine ⟨fun h => by simp [resolvedRefName, h],
    fun h => by simp [defaultRefOf, h], msgRef_mem _ _ _⟩

/-- Witness for C6: with no configured default ref, an empty submitted
ref resolves to "refs/heads/main" and passes; `refName="main"` fails the
ref rule. -/
theorem refName_validation_rules_witness :
    resolvedRefName stA "" = "refs/heads/main" ∧
    pyStartsWith (resolvedRefName stA "main") "refs/" = false ∧
    msgRef ∈ validationErrors (resolvedPipelineId "42")
      (resolvedProject stA "Proj") (resolvedRefName stA "main") := by
  have h0 := refName_validation_rules stA "42" "Proj" ""
  have h1 := refName_validation_rules stA "42" "Proj" "main"
  exact ⟨(h0.1 rfl).trans (h0.2.1 rfl), by decide, (h1.2.2).mpr (by decide)⟩

/-- C7: for every validated request under a present configuration, the
outbound HTTP event carries exactly the URL
`{orgBaseUrl minus trailing slashes}/{quoted project}/_apis/pipelines/{pipelineId}/runs?api-version=7.1`
and the JSON payload nesting the refName under
resources.repositories.self. -/
theorem outbound_request_shape (st : Settings) (parse : Parse) (net : Net)
    (pid proj ref : String)
    (hval : validationErrors (resolvedPipelineId pid) (resolvedProject st proj)
      (resolvedRefName st ref) = [])
    (horg : st.AZDO_ORG_URL ≠ "") (hpat : st.AZDO_PAT ≠ "") :
    ∃ evs, (devops_trigger st parse net .POST pid proj ref).2 =
      Event.httpPost
        (rstripSlashes st.AZDO_ORG_URL ++ "/" ++ quote (resolvedProject st proj) ++
          "/_apis/pipelines/" ++ resolvedPipelineId pid ++ "/runs?api-version=7.1")
        (Json.obj [("resources", Json.obj [("repositories", Json.obj [("self",
          Json.obj [("refName", Json.str (resolvedRefName st ref))])])])]) :: evs := by
  cases hr : net (buildUrl st (resolvedProject st proj) (resolvedPipelineId pid))
      st.AZDO_PAT (buildPayload (resolvedRefName st ref)) with
  | response status text =>
    rw [dt_post_response st parse net pid proj ref status text hval horg hpat hr]
    exact ⟨_, rfl⟩
  | timeout =>
    rw [dt_post_timeout st parse net pid proj ref hval horg hpat hr]
    exact ⟨_, rfl⟩
  | netError d =>
    rw [dt_post_netError st parse net pid proj ref d hval horg hpat hr]
    exact ⟨_, rfl⟩

/-- Witness for C7: `project="My Proj"` is percent-encoded as `My%20Proj`
and the empty ref resolves to `refs/heads/main` inside the payload. -/
theorem outbound_request_shape_witness :
    ∃ evs, (devops_trigger stA parseNone netOK .POST "42" "My Proj" "").2 =
      Event.httpPost
        "https://dev.azure.com/Org/My%20Proj/_apis/pipelines/42/runs?api-version=7.1"
        (Json.obj [("resources", Json.obj [("repositories", Json.obj [("self",
          Json.obj [("refName", Json.str "refs/heads/main")])])])]) :: evs := by
  obtain ⟨evs, he⟩ := outbound_request_shape stA parseNone netOK "42" "My Proj" ""
    (by decide) (by decide) (by decide)
  exact ⟨evs, he.trans (by rfl)⟩

/-- C10: in a validated request the user-controlled URL segments are
harmless — every character of the validated pipelineId is a decimal digit
and every character of the percent-encoded project segment is unreserved,
a percent or an uppercase hex digit, so neither contains `/`, `?`, `#`,
`&` or `=` — and only these two encoded segments (never the raw refName,
which travels in the JSON payload) enter the posted URL. -/
theorem url_injection_safety (st : Settings) (parse : Parse) (net : Net)
    (pid proj ref : String)
    (hval : validationErrors (resolvedPipelineId pid) (resolvedProject st proj)
      (resolvedRefName st ref) = [])
    (horg : st.AZDO_ORG_URL ≠ "") (hpat : st.AZDO_PAT ≠ "") :
    (∀ c ∈ (resolvedPipelineId pid).data, isNdDigit c = true ∧ urlMeta c = false) ∧
    (∀ c ∈ (quote (resolvedProject st proj)).data,
      isQuoteOutputChar c = true ∧ urlMeta c = false) ∧
    ∃ evs, (devops_trigger st parse net .POST pid proj ref).2 =
      Event.httpPost (buildUrl st (resolvedProject st proj) (resolvedPipelineId pid))
        (buildPayload (resolvedRefName st ref)) :: evs := by
  have hmatch : pipelineIdRegexMatches (resolvedPipelineId pid) = true :=
    ((validationErrors_eq_nil _ _ _).mp hval).1.2
  have hall : ∀ c ∈ (resolvedPipelineId pid).data, isNdDigit c = true := by
    intro c hc
    have h2 := ((Bool.and_eq_true _ _).mp hmatch).2
    exact List.all_eq_true.mp h2 c hc
  refine ⟨fun c hc => ⟨hall c hc, nd_not_meta c (hall c hc)⟩,
    fun c hc => ⟨quote_chars _ c hc, quoteOutput_not_meta c (quote_chars _ c hc)⟩, ?_⟩
  cases hr : net (buildUrl st (resolvedProject st proj) (resolvedPipelineId pid))
      st.AZDO_PAT (buildPayload (resolvedRefName st ref)) with
  | response status text =>
    rw [dt_post_response st parse net pid proj ref status text hval horg hpat hr]
    exact ⟨_, rfl⟩
  | timeout =>
    rw [dt_post_timeout st parse net pid proj ref hval horg hpat hr]
    exact ⟨_, rfl⟩
  | netError d =>
    rw [dt_post_netError st parse net pid proj ref d hval horg hpat hr]
    exact ⟨_, rfl⟩

/-- Witness for C10 at `pipelineId="42"`, `project="My Proj"`. -/
theorem url_injection_safety_witness :
    validationErrors (resolvedPipelineId "42") (resolvedProject stA "My Proj")
        (resolvedRefName stA "refs/heads/main") = [] ∧
    (∀ c ∈ (resolvedPipelineId "42").data, isNdDigit c = true ∧ urlMeta c = false) ∧
    (∀ c ∈ (quote (resolvedProject stA "My Proj")).data,
      isQuoteOutputChar c = true ∧ urlMeta c = false) := by
  have h := url_injection_safety stA parseNone netOK "42" "My Proj"
    "refs/heads/main" (by decide) (by decide) (by decide)
  exact ⟨by decide, h.1, h.2.1⟩

/-- C1, counterexample: a token value that happens to occur inside a fixed
validation message appears verbatim in the caller-visible error field, so
the literal claim — for every outcome, the token is never a substring of
any caller-visible field — is false as stated. -/
theorem token_collision_counterexample :
    stLeak.AZDO_PAT ≠ "" ∧
    (devops_trigger stLeak parseNone netOK .POST "abc" "Proj" "refs/heads/main").1.error
        = some msgPipeline ∧
    isSubstr stLeak.AZDO_PAT msgPipeline = true := by
  refine ⟨by decide, by decide, by decide⟩

/-- C1, amended: the view itself never injects the token into any
caller-visible field or log record — its entire output (context and event
list) is invariant under replacing the token by any other token of the
same emptiness, as long as the network environment's answers are
unchanged; the token can therefore only surface through the inputs, the
fixed texts, or strings returned by the environment. -/
theorem token_noninterference (st : Settings) (parse : Parse) (net₁ net₂ : Net)
    (t₁ t₂ : String) (method : Method) (pid proj ref : String)
    (hemp : t₁ = "" ↔ t₂ = "")
    (hnet : ∀ u p, net₁ u t₁ p = net₂ u t₂ p) :
    devops_trigger { st with AZDO_PAT := t₁ } parse net₁ method pid proj ref =
      devops_trigger { st with AZDO_PAT := t₂ } parse net₂ method pid proj ref := by
  cases method
  case GET => rfl
  case POST =>
    by_cases hval : validationErrors (resolvedPipelineId pid)
        (resolvedProject st proj) (resolvedRefName st ref) = []
    · by_cases horg : st.AZDO_ORG_URL = ""
      · rw [dt_post_config { st with AZDO_PAT := t₁ } parse net₁ pid proj ref hval
              (Or.inl horg),
            dt_post_config { st with AZDO_PAT := t₂ } parse net₂ pid proj ref hval
              (Or.inl horg)]
        rfl
      · by_cases hp1 : t₁ = ""
        · have hp2 : t₂ = "" := hemp.mp hp1
          rw [dt_post_config { st with AZDO_PAT := t₁ } parse net₁ pid proj ref hval
                (Or.inr hp1),
              dt_post_config { st with AZDO_PAT := t₂ } parse net₂ pid proj ref hval
                (Or.inr hp2)]
          rfl
        · have hp2 : t₂ ≠ "" := fun h => hp1 (hemp.mpr h)
          cases hr : net₁ (buildUrl st (resolvedProject st proj) (resolvedPipelineId pid))
              t₁ (buildPayload (resolvedRefName st ref)) with
          | response status text =>
            rw [dt_post_response { st with AZDO_PAT := t₁ } parse net₁ pid proj ref
                  status text hval horg hp1 hr,
                dt_post_response { st with AZDO_PAT := t₂ } parse net₂ pid proj ref
                  status text hval horg hp2 ((hnet _ _).symm.trans hr)]
            rfl
          | timeout =>
            rw [dt_post_timeout { st with AZDO_PAT := t₁ } parse net₁ pid proj ref
                  hval horg hp1 hr,
                dt_post_timeout { st with AZDO_PAT := t₂ } parse net₂ pid proj ref
                  hval horg hp2 ((hnet _ _).symm.trans hr)]
            rfl
          | netError d =>
            rw [dt_post_netError { st with AZDO_PAT := t₁ } parse net₁ pid proj ref
                  d hval horg hp1 hr,
                dt_post_netError { st with AZDO_PAT := t₂ } parse net₂ pid proj ref
                  d hval horg hp2 ((hnet _ _).symm.trans hr)]
            rfl
    · rw [dt_post_invalid { st with AZDO_PAT := t₁ } parse net₁ pid proj ref hval,
          dt_post_invalid { st with AZDO_PAT := t₂ } parse net₂ pid proj ref hval]
      rfl

/-- Witness for C1 (amended): swapping the token `tokenA` for `tokenB`
leaves the whole visible output of a successful trigger unchanged. -/
theorem token_noninterference_witness :
    ("tokenA" = "" ↔ "tokenB" = "") ∧
    devops_trigger ⟨"https://dev.azure.com/Org", "tokenA", "Proj", ""⟩
        parseNone netOK .POST "42" "" "" =
      devops_trigger ⟨"https://dev.azure.com/Org", "tokenB", "Proj", ""⟩
        parseNone netOK .POST "42" "" "" :=
  ⟨by decide,
    token_noninterference ⟨"https://dev.azure.com/Org", "x", "Proj", ""⟩
      parseNone netOK netOK "tokenA" "tokenB" .POST "42" "" ""
      (by decide) (fun _ _ => rfl)⟩

end DevOpsUI
